import Mathlib

/-!
Shallow embedding of the report store of
`src/robot_framework/sub_process/sqlite_process.py` (class `DocDatabase`).

The SQLite file holds two tables and one index:

* `reports (report_date, tax_year)` — each row additionally carries SQLite's
  implicit integer `rowid`; with no deletions SQLite assigns a fresh row the
  rowid `max(existing rowids) + 1` (and `1` for an empty table).
* `properties (property_number, report_id REFERENCES reports (rowid))`.
* an index `property_number_index` on `properties (property_number)`
  (the index affects only lookup cost, not results, so the embedding tracks
  only its existence).

The Python code opens a fresh connection per operation; `sqlite3` runs the
statements of `add_report_data` inside one implicit transaction that becomes
visible only at `connection.commit()`.  The embedding makes that explicit:
a `Conn` carries the committed database and the pending (uncommitted) view,
and `add_report_data` is the committed result of running its statement list.
-/

/-- One row of the `reports` table, together with its implicit SQLite rowid. -/
structure ReportRow where
  rowid : Nat
  report_date : String
  tax_year : String
deriving DecidableEq, Repr

/-- One row of the `properties` table. -/
structure PropertyRow where
  property_number : String
  report_id : Nat
deriving DecidableEq, Repr

/-- The state of the SQLite database file backing a `DocDatabase`:
    which schema objects exist, and the rows of the two tables in
    insertion order. -/
structure DocDatabase where
  reportsTable : Bool
  propertiesTable : Bool
  propertyIndex : Bool
  reports : List ReportRow
  properties : List PropertyRow
deriving DecidableEq, Repr

namespace DocDatabase

/-- A freshly created, still empty database file. -/
def empty : DocDatabase :=
  { reportsTable := false, propertiesTable := false, propertyIndex := false
    reports := [], properties := [] }

/-- The rowid SQLite assigns to the next `INSERT INTO reports` row:
    one more than the largest rowid in use (`1` on an empty table). -/
def nextRowid (rs : List ReportRow) : Nat :=
  rs.foldr (fun r m => max r.rowid m) 0 + 1

/-- `DocDatabase._create_tables`: `CREATE TABLE IF NOT EXISTS` for both
    tables and `CREATE INDEX IF NOT EXISTS`; existing schema objects and all
    stored rows are left untouched. -/
def create_tables (db : DocDatabase) : DocDatabase :=
  { db with reportsTable := true, propertiesTable := true, propertyIndex := true }

/-- The SQL statements `add_report_data` issues on its cursor.
    `insertProperty` records only the property number: the Python code passes
    `cursor.lastrowid` for `report_id`, which the connection tracks. -/
inductive Stmt where
  | insertReport (report_date tax_year : String)
  | insertProperty (property_number : String)
  | commit
deriving DecidableEq, Repr

/-- An open `sqlite3` connection: the committed file contents, the pending
    view including uncommitted writes, and the cursor's `lastrowid`
    (`0` standing for Python's initial `None`, which the code never reads). -/
structure Conn where
  committed : DocDatabase
  pending : DocDatabase
  lastrowid : Nat
deriving DecidableEq, Repr

/-- `sqlite3.connect`: both views start at the file contents. -/
def Conn.connect (db : DocDatabase) : Conn :=
  { committed := db, pending := db, lastrowid := 0 }

/-- Execute one statement on a connection.  Inserts touch only the pending
    view; `commit` publishes the pending view to the file. -/
def execStmt (c : Conn) : Stmt → Conn
  | .insertReport d y =>
      let rid := nextRowid c.pending.reports
      { c with
        pending := { c.pending with reports := c.pending.reports ++ [⟨rid, d, y⟩] }
        lastrowid := rid }
  | .insertProperty pn =>
      { c with
        pending := { c.pending with
          properties := c.pending.properties ++ [⟨pn, c.lastrowid⟩] } }
  | .commit => { c with committed := c.pending }

/-- Run a statement list on a fresh connection to `db`. -/
def runStmts (db : DocDatabase) (stmts : List Stmt) : Conn :=
  stmts.foldl execStmt (Conn.connect db)

/-- The statement trace of `DocDatabase.add_report_data`: insert the report
    row, insert one property row per list entry, then commit. -/
def add_report_stmts (report_date tax_year : String) (property_list : List String) :
    List Stmt :=
  Stmt.insertReport report_date tax_year ::
    (property_list.map Stmt.insertProperty ++ [Stmt.commit])

/-- `DocDatabase.add_report_data`: the committed database after the full
    statement trace has run. -/
def add_report_data (db : DocDatabase) (report_date tax_year : String)
    (property_list : List String) : DocDatabase :=
  (runStmts db (add_report_stmts report_date tax_year property_list)).committed

/-- `DocDatabase.is_report_in_database`:
    `SELECT * FROM reports WHERE report_date = ? AND tax_year = ?`,
    then `len(cursor.fetchall()) > 0`. -/
def is_report_in_database (db : DocDatabase) (report_date tax_year : String) : Bool :=
  decide (0 < (db.reports.filter
    (fun r => r.report_date == report_date && r.tax_year == tax_year)).length)

/-- One result row of `search_property`.  `SELECT *` over
    `properties JOIN reports` yields exactly the columns `property_number`,
    `report_id`, `report_date`, `tax_year` (the implicit `rowid` is not part
    of `*`), and `dict_factory` turns each row into a record keyed by those
    column names. -/
structure SearchResult where
  property_number : String
  report_id : Nat
  report_date : String
  tax_year : String
deriving DecidableEq, Repr

/-- `DocDatabase.search_property`:
    `SELECT * FROM properties JOIN reports ON properties.report_id =
    reports.rowid WHERE property_number = ?`, rows in insertion order of
    `properties`, each joined with the reports rows whose rowid matches. -/
def search_property (db : DocDatabase) (property_number : String) :
    List SearchResult :=
  (db.properties.filter (fun p => p.property_number == property_number)).flatMap
    fun p =>
      (db.reports.filter (fun r => r.rowid == p.report_id)).map
        fun r => ⟨p.property_number, p.report_id, r.report_date, r.tax_year⟩

/-- The operations that can touch a store's state.  `is_report_in_database`
    and `search_property` only run `SELECT` statements: they are included as
    explicit read operations and shown to leave the state unchanged. -/
inductive Op where
  | createTables
  | addReport (report_date tax_year : String) (property_list : List String)
  | isReportInDatabase (report_date tax_year : String)
  | searchProperty (property_number : String)
deriving DecidableEq, Repr

/-- Apply one operation to the database state.  The two read operations
    return their answers to the caller and leave the file unchanged. -/
def applyOp (db : DocDatabase) : Op → DocDatabase
  | .createTables => db.create_tables
  | .addReport d y props => db.add_report_data d y props
  | .isReportInDatabase _ _ => db
  | .searchProperty _ => db

/-- The state reached from a fresh file by a sequence of operations. -/
def runOps (ops : List Op) : DocDatabase :=
  ops.foldl applyOp DocDatabase.empty

/-- Invariant I1: no two stored reports share the `(report_date, tax_year)`
    key pair. -/
def keyDistinct (db : DocDatabase) : Prop :=
  db.reports.Pairwise fun a b =>
    ¬(a.report_date = b.report_date ∧ a.tax_year = b.tax_year)

/-- One guarded ingestion step, as the harvester's `update_doc_database`
    performs it: call `is_report_in_database` first and ingest only when the
    key is absent. -/
def guarded_add (db : DocDatabase) (call : String × String × List String) :
    DocDatabase :=
  if db.is_report_in_database call.1 call.2.1 then db
  else db.add_report_data call.1 call.2.1 call.2.2

/-- Well-formedness carried through every reachable state: stored reports
    have pairwise-distinct rowids, and every property row references the
    rowid of some stored report. -/
def wfInv (db : DocDatabase) : Prop :=
  db.reports.Pairwise (fun a b => a.rowid ≠ b.rowid) ∧
  ∀ p ∈ db.properties, ∃ rep ∈ db.reports, rep.rowid = p.report_id

/-! ### Helper lemmas about the embedding -/

theorem rowid_le_foldr (rs : List ReportRow) (r : ReportRow) (hr : r ∈ rs) :
    r.rowid ≤ rs.foldr (fun a m => max a.rowid m) 0 := by
  induction rs with
  | nil => cases hr
  | cons a t ih =>
    rcases List.mem_cons.mp hr with h | h
    · subst h; exact le_max_left _ _
    · exact le_trans (ih h) (le_max_right _ _)

theorem rowid_lt_nextRowid (rs : List ReportRow) (r : ReportRow) (hr : r ∈ rs) :
    r.rowid < nextRowid rs :=
  Nat.lt_succ_of_le (rowid_le_foldr rs r hr)

theorem execStmt_committed (c : Conn) (s : Stmt) (h : s ≠ Stmt.commit) :
    (execStmt c s).committed = c.committed := by
  cases s with
  | insertReport d y => rfl
  | insertProperty pn => rfl
  | commit => exact absurd rfl h

/-- A statement list that never commits leaves the committed file unchanged. -/
theorem foldl_committed (stmts : List Stmt) (c : Conn) (h : Stmt.commit ∉ stmts) :
    (stmts.foldl execStmt c).committed = c.committed := by
  induction stmts generalizing c with
  | nil => rfl
  | cons s t ih =>
    have hs : s ≠ Stmt.commit := by rintro rfl; exact h (List.mem_cons_self _ _)
    have ht : Stmt.commit ∉ t := fun hm => h (List.mem_cons_of_mem s hm)
    rw [List.foldl_cons, ih _ ht, execStmt_committed c s hs]

/-- Running the property-insert statements appends one `properties` row per
    entry, each tagged with the connection's current `lastrowid`. -/
theorem foldl_insertProperty (props : List String) (c : Conn) :
    (props.map Stmt.insertProperty).foldl execStmt c =
      { c with pending := { c.pending with
          properties := c.pending.properties ++
            props.map (fun p => ⟨p, c.lastrowid⟩) } } := by
  induction props generalizing c with
  | nil => simp
  | cons p t ih =>
    rw [List.map_cons, List.foldl_cons, ih]
    simp [execStmt, List.append_assoc]

/-- Closed form of `add_report_data`: one new report row with the next
    rowid, and one new property row per list entry referencing it. -/
theorem add_report_data_eq (db : DocDatabase) (d y : String) (props : List String) :
    add_report_data db d y props =
      { db with
        reports := db.reports ++ [⟨nextRowid db.reports, d, y⟩]
        properties := db.properties ++
          props.map (fun p => ⟨p, nextRowid db.reports⟩) } := by
  unfold add_report_data runStmts add_report_stmts
  rw [List.foldl_cons, List.foldl_append, foldl_insertProperty]
  simp [execStmt, Conn.connect]

/-- `is_report_in_database` answers true exactly when some stored report
    matches both fields. -/
theorem is_report_in_database_iff (db : DocDatabase) (d y : String) :
    db.is_report_in_database d y = true ↔
      ∃ r ∈ db.reports, r.report_date = d ∧ r.tax_year = y := by
  simp [is_report_in_database, List.length_pos_iff_exists_mem, List.mem_filter]

/-- Membership characterisation of `search_property` results. -/
theorem mem_search_property (db : DocDatabase) (pn : String) (r : SearchResult) :
    r ∈ db.search_property pn ↔
      ∃ p ∈ db.properties, ∃ rep ∈ db.reports,
        p.property_number = pn ∧ rep.rowid = p.report_id ∧
        r = ⟨p.property_number, p.report_id, rep.report_date, rep.tax_year⟩ := by
  simp only [search_property, List.mem_flatMap, List.mem_filter, List.mem_map,
    beq_iff_eq]
  constructor
  · rintro ⟨p, ⟨hp, hpn⟩, rep, ⟨hrep, hrid⟩, hrec⟩
    exact ⟨p, hp, rep, hrep, hpn, hrid, hrec.symm⟩
  · rintro ⟨p, hp, rep, hrep, hpn, hrid, hrec⟩
    exact ⟨p, ⟨hp, hpn⟩, rep, ⟨hrep, hrid⟩, hrec.symm⟩

/-- The freshly inserted report row is the unique row matching the new
    rowid in the joined table. -/
theorem reports_filter_old (db : DocDatabase) :
    List.filter (fun r => r.rowid == nextRowid db.reports) db.reports = [] := by
  rw [List.filter_eq_nil_iff]
  intro r hr
  simp [Nat.ne_of_lt (rowid_lt_nextRowid db.reports r hr)]

/-- `search_property` after one `add_report_data` on a database that holds no
    prior mention of `pn`: one result per occurrence of `pn` in the inserted
    list, carrying the new report's rowid, date and tax year. -/
theorem search_property_add (db : DocDatabase) (d y pn : String) (props : List String)
    (habs : ∀ p ∈ db.properties, p.property_number ≠ pn) :
    (db.add_report_data d y props).search_property pn =
      (props.filter (fun q => q == pn)).map
        (fun q => ⟨q, nextRowid db.reports, d, y⟩) := by
  have h0 : List.filter (fun p => p.property_number == pn) db.properties = [] := by
    rw [List.filter_eq_nil_iff]
    intro p hp
    simp [habs p hp]
  simp only [add_report_data_eq, search_property, List.filter_append, h0,
    List.nil_append, List.filter_map, Function.comp_def, List.flatMap_map,
    reports_filter_old, List.filter_cons, List.filter_nil, beq_self_eq_true,
    if_true, List.map_cons, List.map_nil]
  rw [← List.map_eq_flatMap]

/-- In a list of reports with pairwise-distinct rowids, the rowid determines
    the row. -/
theorem rowid_inj_of_pairwise (l : List ReportRow)
    (h : l.Pairwise (fun a b => a.rowid ≠ b.rowid)) :
    ∀ a ∈ l, ∀ b ∈ l, a.rowid = b.rowid → a = b := by
  induction l with
  | nil => intro a ha; cases ha
  | cons x t ih =>
    rw [List.pairwise_cons] at h
    intro a ha b hb hab
    rcases List.mem_cons.mp ha with rfl | ha' <;>
      rcases List.mem_cons.mp hb with rfl | hb'
    · rfl
    · exact absurd hab (h.1 b hb')
    · exact absurd hab.symm (h.1 a ha')
    · exact ih h.2 a ha' b hb' hab

/-! ### Claims -/

/-- C1: after `add_report_data "2024-05-01" "2024" ["000123", "000456"]` on a
    database holding no prior mention of `"000123"` or `"999999"`,
    `search_property "000123"` returns exactly one record with
    property number `"000123"`, report date `"2024-05-01"` and tax year
    `"2024"`, `search_property "999999"` returns the empty list, and every
    record any `search_property` call returns matches the queried property
    number by exact string equality. -/
theorem C1_round_trip (db : DocDatabase)
    (h1 : ∀ p ∈ db.properties, p.property_number ≠ "000123")
    (h2 : ∀ p ∈ db.properties, p.property_number ≠ "999999") :
    ((db.add_report_data "2024-05-01" "2024" ["000123", "000456"]).search_property
        "000123").map (fun r => (r.property_number, r.report_date, r.tax_year)) =
      [("000123", "2024-05-01", "2024")] ∧
    (db.add_report_data "2024-05-01" "2024" ["000123", "000456"]).search_property
        "999999" = [] ∧
    ∀ (pn : String) (r : SearchResult) (db2 : DocDatabase),
      r ∈ db2.search_property pn → r.property_number = pn := by
  refine ⟨?_, ?_, ?_⟩
  · rw [search_property_add db _ _ _ _ h1]
    rfl
  · rw [search_property_add db _ _ _ _ h2]
    rfl
  · intro pn r db2 hr
    rcases (mem_search_property db2 pn r).mp hr with ⟨p, _, rep, _, hpn, _, hrec⟩
    rw [hrec]
    exact hpn

/-- Witness for C1 at the empty database. -/
theorem C1_witness :
    ((DocDatabase.empty.add_report_data "2024-05-01" "2024"
        ["000123", "000456"]).search_property "000123").map
        (fun r => (r.property_number, r.report_date, r.tax_year)) =
      [("000123", "2024-05-01", "2024")] ∧
    (DocDatabase.empty.add_report_data "2024-05-01" "2024"
        ["000123", "000456"]).search_property "999999" = [] ∧
    ∀ (pn : String) (r : SearchResult) (db2 : DocDatabase),
      r ∈ db2.search_property pn → r.property_number = pn :=
  C1_round_trip DocDatabase.empty (by simp [DocDatabase.empty])
    (by simp [DocDatabase.empty])

/-- C2: if `add_report_data` fails after its report `INSERT` and the first
    `k < length` property `INSERT`s, before `connection.commit()` runs, the
    committed database is unchanged: neither the report row nor any property
    row of the call is visible, and `is_report_in_database` still answers
    false for the key. -/
theorem C2_atomicity (db : DocDatabase) (d y : String) (props : List String)
    (k : Nat) (hk : k < props.length)
    (habs : db.is_report_in_database d y = false) :
    (runStmts db (Stmt.insertReport d y ::
        (props.take k).map Stmt.insertProperty)).committed = db ∧
    ((runStmts db (Stmt.insertReport d y ::
        (props.take k).map Stmt.insertProperty)).committed.is_report_in_database
        d y) = false := by
  have hnc : Stmt.commit ∉ Stmt.insertReport d y ::
      (props.take k).map Stmt.insertProperty := by
    intro hm
    rcases List.mem_cons.mp hm with h | h
    · cases h
    · rcases List.mem_map.mp h with ⟨a, _, ha⟩
      cases ha
  have h1 : (runStmts db (Stmt.insertReport d y ::
      (props.take k).map Stmt.insertProperty)).committed = db :=
    foldl_committed _ (Conn.connect db) hnc
  refine ⟨h1, ?_⟩
  rw [h1]
  exact habs

/-- Witness for C2: failing after the report row with none of the one
    property row written, on the empty database. -/
theorem C2_witness :
    (runStmts DocDatabase.empty (Stmt.insertReport "2024-05-01" "2024" ::
        ((["000123"] : List String).take 0).map Stmt.insertProperty)).committed =
      DocDatabase.empty ∧
    ((runStmts DocDatabase.empty (Stmt.insertReport "2024-05-01" "2024" ::
        ((["000123"] : List String).take 0).map
          Stmt.insertProperty)).committed.is_report_in_database
        "2024-05-01" "2024") = false :=
  C2_atomicity DocDatabase.empty "2024-05-01" "2024" ["000123"] 0
    (by decide) (by decide)

/-- C3: the store itself rejects nothing on a duplicate key: when some stored
    report already has key `(d, y)`, `add_report_data` with that key still
    runs to completion and afterwards two stored report rows with distinct
    rowids both carry the key `(d, y)`. -/
theorem C3_no_duplicate_rejection (db : DocDatabase) (d y : String)
    (props : List String) (r : ReportRow) (hr : r ∈ db.reports)
    (hd : r.report_date = d) (hy : r.tax_year = y) :
    ∃ r1 ∈ (db.add_report_data d y props).reports,
      ∃ r2 ∈ (db.add_report_data d y props).reports,
        r1.rowid ≠ r2.rowid ∧ r1.report_date = d ∧ r1.tax_year = y ∧
        r2.report_date = d ∧ r2.tax_year = y := by
  rw [add_report_data_eq]
  refine ⟨r, List.mem_append_left _ hr,
    ⟨nextRowid db.reports, d, y⟩,
    List.mem_append_right _ (List.mem_singleton.mpr rfl),
    Nat.ne_of_lt (rowid_lt_nextRowid db.reports r hr), hd, hy, rfl, rfl⟩

/-- Witness for C3 on a database already holding the key. -/
theorem C3_witness :
    ∃ r1 ∈ ((⟨true, true, true, [⟨1, "2024-01-01", "2024"⟩], []⟩ :
        DocDatabase).add_report_data "2024-01-01" "2024" ["000123"]).reports,
      ∃ r2 ∈ ((⟨true, true, true, [⟨1, "2024-01-01", "2024"⟩], []⟩ :
          DocDatabase).add_report_data "2024-01-01" "2024" ["000123"]).reports,
        r1.rowid ≠ r2.rowid ∧ r1.report_date = "2024-01-01" ∧
        r1.tax_year = "2024" ∧ r2.report_date = "2024-01-01" ∧
        r2.tax_year = "2024" :=
  C3_no_duplicate_rejection _ _ _ ["000123"] ⟨1, "2024-01-01", "2024"⟩
    (List.mem_singleton.mpr rfl) rfl rfl

/-- C4: under the harvester's guarded protocol — each ingestion preceded by an
    `is_report_in_database` check and skipped when the key is present — a
    database whose reports have pairwise-distinct keys keeps that property
    after any sequence of calls: invariant I1 holds in every state reachable
    under the protocol. -/
theorem C4_uniqueness (db : DocDatabase)
    (calls : List (String × String × List String)) (h : keyDistinct db) :
    keyDistinct (calls.foldl guarded_add db) := by
  induction calls generalizing db with
  | nil => exact h
  | cons c t ih =>
    rw [List.foldl_cons]
    apply ih
    unfold guarded_add
    split
    · exact h
    · next hc =>
      simp only [keyDistinct, add_report_data_eq] at h ⊢
      rw [List.pairwise_append]
      refine ⟨h, List.pairwise_singleton _ _, ?_⟩
      intro a ha b hb
      rcases List.mem_singleton.mp hb with rfl
      rintro ⟨hd, hy⟩
      exact hc ((is_report_in_database_iff db c.1 c.2.1).mpr ⟨a, ha, hd, hy⟩)

/-- Witness for C4: two guarded calls with the same key starting from the
    empty database. -/
theorem C4_witness :
    keyDistinct (([("2024-05-01", "2024", ["000123"]),
        ("2024-05-01", "2024", ["000456"])] :
      List (String × String × List String)).foldl guarded_add
        DocDatabase.empty) :=
  C4_uniqueness DocDatabase.empty _ List.Pairwise.nil

/-- C5: a second `_create_tables` on an already initialised database is a
    no-op: it returns the same state, the first call already left all stored
    report and property rows untouched, and `is_report_in_database`,
    `search_property` and `add_report_data` answer identically before and
    after the repeated call. -/
theorem C5_idempotent_schema (db : DocDatabase) (d y pn : String)
    (props : List String) :
    db.create_tables.create_tables = db.create_tables ∧
    db.create_tables.reports = db.reports ∧
    db.create_tables.properties = db.properties ∧
    db.create_tables.create_tables.is_report_in_database d y =
      db.create_tables.is_report_in_database d y ∧
    db.create_tables.create_tables.search_property pn =
      db.create_tables.search_property pn ∧
    db.create_tables.create_tables.add_report_data d y props =
      db.create_tables.add_report_data d y props :=
  ⟨rfl, rfl, rfl, rfl, rfl, rfl⟩

/-- C6: duplicate mentions inside one report are kept: ingesting
    `["000123", "000123"]` stores two property rows, and `search_property
    "000123"` afterwards returns two records, one per mention. -/
theorem C6_duplicate_mentions (db : DocDatabase)
    (h1 : ∀ p ∈ db.properties, p.property_number ≠ "000123") :
    ((db.add_report_data "2024-06-01" "2024" ["000123", "000123"]).search_property
        "000123").map (fun r => (r.property_number, r.report_date, r.tax_year)) =
      [("000123", "2024-06-01", "2024"), ("000123", "2024-06-01", "2024")] ∧
    ((db.add_report_data "2024-06-01" "2024"
        ["000123", "000123"]).search_property "000123").length = 2 := by
  rw [search_property_add db _ _ _ _ h1]
  exact ⟨rfl, rfl⟩

/-- Witness for C6 at the empty database. -/
theorem C6_witness :
    ((DocDatabase.empty.add_report_data "2024-06-01" "2024"
        ["000123", "000123"]).search_property "000123").map
        (fun r => (r.property_number, r.report_date, r.tax_year)) =
      [("000123", "2024-06-01", "2024"), ("000123", "2024-06-01", "2024")] ∧
    ((DocDatabase.empty.add_report_data "2024-06-01" "2024"
        ["000123", "000123"]).search_property "000123").length = 2 :=
  C6_duplicate_mentions DocDatabase.empty (by simp [DocDatabase.empty])

/-- C7: an empty mention list is accepted: `add_report_data d y []` adds the
    report row with no property rows, and `is_report_in_database d y` answers
    true afterwards. -/
theorem C7_empty_mentions (db : DocDatabase) (d y : String) :
    (db.add_report_data d y []).properties = db.properties ∧
    (db.add_report_data d y []).reports =
      db.reports ++ [⟨nextRowid db.reports, d, y⟩] ∧
    (db.add_report_data d y []).is_report_in_database d y = true := by
  rw [add_report_data_eq]
  refine ⟨by simp, by simp, ?_⟩
  rw [is_report_in_database_iff]
  refine ⟨⟨nextRowid db.reports, d, y⟩, ?_, rfl, rfl⟩
  simp

/-- C8: `is_report_in_database` answers true exactly when a stored report
    matches both the report date and the tax year, and as an operation it
    leaves the database state unchanged. -/
theorem C8_is_report_in_database_correct (db : DocDatabase) (d y : String) :
    (db.is_report_in_database d y = true ↔
      ∃ r ∈ db.reports, r.report_date = d ∧ r.tax_year = y) ∧
    applyOp db (Op.isReportInDatabase d y) = db :=
  ⟨is_report_in_database_iff db d y, rfl⟩

/-- In every state reachable by operation sequences from a fresh database,
    the well-formedness invariant holds. -/
theorem wfInv_applyOp (db : DocDatabase) (op : Op) (h : wfInv db) :
    wfInv (applyOp db op) := by
  rcases h with ⟨hpw, href⟩
  cases op with
  | createTables => exact ⟨hpw, href⟩
  | addReport d y props =>
    simp only [applyOp, add_report_data_eq]
    constructor
    · rw [List.pairwise_append]
      refine ⟨hpw, List.pairwise_singleton _ _, ?_⟩
      intro a ha b hb
      rcases List.mem_singleton.mp hb with rfl
      exact Nat.ne_of_lt (rowid_lt_nextRowid db.reports a ha)
    · intro p hp
      rcases List.mem_append.mp hp with hp | hp
      · rcases href p hp with ⟨rep, hrep, heq⟩
        exact ⟨rep, List.mem_append_left _ hrep, heq⟩
      · rcases List.mem_map.mp hp with ⟨q, _, rfl⟩
        exact ⟨⟨nextRowid db.reports, d, y⟩,
          List.mem_append_right _ (List.mem_singleton.mpr rfl), rfl⟩
  | isReportInDatabase d y => exact ⟨hpw, href⟩
  | searchProperty pn => exact ⟨hpw, href⟩

theorem wfInv_runOps (ops : List Op) : wfInv (runOps ops) := by
  unfold runOps
  have h : ∀ db, wfInv db → wfInv (ops.foldl applyOp db) := by
    induction ops with
    | nil => exact fun db h => h
    | cons op t ih => exact fun db h => ih _ (wfInv_applyOp db op h)
  refine h _ ⟨List.Pairwise.nil, ?_⟩
  intro p hp
  cases hp

/-- C9: referential integrity in every reachable state: after any sequence of
    operations on a fresh database, every stored property row references
    exactly one stored report row, the one whose rowid it carries. -/
theorem C9_referential_integrity (ops : List Op) (p : PropertyRow)
    (hp : p ∈ (runOps ops).properties) :
    ∃! rep : ReportRow,
      rep ∈ (runOps ops).reports ∧ rep.rowid = p.report_id := by
  rcases wfInv_runOps ops with ⟨hpw, href⟩
  rcases href p hp with ⟨rep, hrep, heq⟩
  refine ⟨rep, ⟨hrep, heq⟩, ?_⟩
  rintro r' ⟨hr', he'⟩
  exact rowid_inj_of_pairwise _ hpw r' hr' rep hrep (he'.trans heq.symm)

/-- Witness for C9 after one ingestion. -/
theorem C9_witness :
    ∃! rep : ReportRow,
      rep ∈ (runOps [Op.addReport "2024-05-01" "2024" ["000123"]]).reports ∧
      rep.rowid = (⟨"000123", 1⟩ : PropertyRow).report_id :=
  C9_referential_integrity [Op.addReport "2024-05-01" "2024" ["000123"]]
    ⟨"000123", 1⟩ (by decide)

/-- C10: every record `search_property` returns carries, besides the property
    number, report date and tax year, a `report_id` field equal to the owning
    report row's rowid, because the query selects every column of the join of
    `properties` and `reports`. -/
theorem C10_result_shape (db : DocDatabase) (pn : String) (r : SearchResult)
    (hr : r ∈ db.search_property pn) :
    r.property_number = pn ∧
    ∃ p ∈ db.properties, ∃ rep ∈ db.reports,
      rep.rowid = p.report_id ∧ r.report_id = rep.rowid ∧
      r = ⟨p.property_number, p.report_id, rep.report_date, rep.tax_year⟩ := by
  rcases (mem_search_property db pn r).mp hr with ⟨p, hp, rep, hrep, hpn, hrid, hrec⟩
  subst hrec
  exact ⟨hpn, p, hp, rep, hrep, hrid, hrid.symm, rfl⟩

/-- Witness for C10 on a one-report, one-mention database. -/
theorem C10_witness :
    ((⟨"000123", 1, "2024-05-01", "2024"⟩ : SearchResult).property_number =
      "000123") ∧
    ∃ p ∈ (⟨true, true, true, [⟨1, "2024-05-01", "2024"⟩], [⟨"000123", 1⟩]⟩ :
        DocDatabase).properties,
      ∃ rep ∈ (⟨true, true, true, [⟨1, "2024-05-01", "2024"⟩], [⟨"000123", 1⟩]⟩ :
          DocDatabase).reports,
        rep.rowid = p.report_id ∧
        (⟨"000123", 1, "2024-05-01", "2024"⟩ : SearchResult).report_id =
          rep.rowid ∧
        (⟨"000123", 1, "2024-05-01", "2024"⟩ : SearchResult) =
          ⟨p.property_number, p.report_id, rep.report_date, rep.tax_year⟩ :=
  C10_result_shape _ "000123" _ (by decide)

end DocDatabase
